import Mathlib

/-!
# Verification of the Learning State Tracker (`engine/working_memory.py`)

Shallow embedding of the `WorkingMemory` class.  Conventions of the embedding:

* Instants (`datetime.now()`) are modelled by a monotone `Nat` clock carried in
  the state; every call of `now()` returns the current clock value and bumps it.
* Python floats are modelled by `ℚ`; the claims under study are about exact
  arithmetic identities of the formulas, not about IEEE rounding.
* `self.current_session` is a dict that is created non-empty at construction and
  is never set to `None` or emptied, so the truthiness guards
  (`if not self.current_session`) are modelled by an `Option Session` whose
  `none` branch mirrors the falsy branch of the Python code (it is dead in both).
* Python's `dict.copy()` in `end_study_session` is a *shallow* copy: the copied
  dict shares the `topics_studied` list object and the `performance_metrics`
  dict object with the original.  To be faithful to this aliasing, sessions do
  not store those containers by value: they store references (indices) into two
  heaps (`topicCells`, `metricCells`) carried by the state, and mutation goes
  through the heap, exactly as Python mutation goes through the shared object.
* `save_memory` side effects are observed through a `saves` counter; the
  serialized payload itself is modelled separately (see the persistence section).
-/

/-- A performance record: `{"score": score, "timestamp": datetime.now()}`
(`record_performance`, working_memory.py lines 120-123 and 129-132). -/
structure PerfRecord where
  score : ℚ
  timestamp : Nat
deriving DecidableEq, Repr

/-- A topic-study entry:
`{"topic": ..., "duration_minutes": ..., "timestamp": datetime.now()}`
(`record_topic_study`, working_memory.py lines 103-107). -/
structure TopicEntry where
  topic : String
  duration_minutes : Int
  timestamp : Nat
deriving DecidableEq, Repr

/-- `performance_metrics` / `performance_history` values: an insertion-ordered
mapping from topic name to the list of its records (a Python dict). -/
abbrev PerfMap := List (String × List PerfRecord)

/-- The top-level keys of a session dict.  `topicsRef` and `metricsRef` are
references into the heaps of `WorkingMemory`: the Python dict stores the list
object `topics_studied` and the dict object `performance_metrics` by reference,
and `dict.copy()` copies only the top-level keys, sharing those two objects. -/
structure Session where
  start_time : Nat
  end_time : Option Nat
  duration : Option ℚ
  topicsRef : Nat
  metricsRef : Nat
deriving DecidableEq, Repr

/-- `self.adaptive_parameters` (working_memory.py lines 25-29). -/
structure AdaptiveParams where
  fatigue_factor : ℚ
  interest_factor : ℚ
  retention_rate : ℚ
deriving DecidableEq, Repr

/-- The in-memory state of one `WorkingMemory` instance, together with the
heaps realising Python object identity of the two mutable containers of the
current session, the clock realising `datetime.now()`, and a counter of
`save_memory` calls. -/
structure WorkingMemory where
  topicCells : List (List TopicEntry)
  metricCells : List PerfMap
  current_session : Option Session
  session_history : List Session
  performance_history : PerfMap
  adaptive_parameters : AdaptiveParams
  clock : Nat
  saves : Nat
deriving DecidableEq, Repr

/-- Defaults `{"fatigue_factor": 1.0, "interest_factor": 1.0, "retention_rate": 0.8}`. -/
def defaultParams : AdaptiveParams :=
  { fatigue_factor := 1, interest_factor := 1, retention_rate := 8/10 }

/-- `WorkingMemory.__init__` for a learner with no persisted file: creates the
initial current session (`start_time = now()`, empty topics and metrics), empty
histories and default parameters (working_memory.py lines 16-29).  Construction
with an existing persisted file is modelled in the persistence section. -/
def initWM (c : Nat) : WorkingMemory :=
  { topicCells := [[]]
    metricCells := [[]]
    current_session := some
      { start_time := c, end_time := none, duration := none
        topicsRef := 0, metricsRef := 0 }
    session_history := []
    performance_history := []
    adaptive_parameters := defaultParams
    clock := c + 1
    saves := 0 }

/-- Dereference a session's `topics_studied` list object. -/
def sessTopics (s : WorkingMemory) (cs : Session) : List TopicEntry :=
  s.topicCells.getD cs.topicsRef []

/-- Dereference a session's `performance_metrics` dict object. -/
def sessMetrics (s : WorkingMemory) (cs : Session) : PerfMap :=
  s.metricCells.getD cs.metricsRef []

/-- `m[k].append(v)` after `if k not in m: m[k] = []` — appends `v` to the
entry of `k`, creating the key (at the end, Python dict insertion order) on
first use. -/
def perfAppend (m : PerfMap) (k : String) (v : PerfRecord) : PerfMap :=
  if m.any (fun p => p.1 = k) then
    m.map (fun p => if p.1 = k then (p.1, p.2 ++ [v]) else p)
  else
    m ++ [(k, [v])]

/-- Python `m.get(k)` / `k in m` lookup on an insertion-ordered dict. -/
def perfLookup (m : PerfMap) (k : String) : Option (List PerfRecord) :=
  (m.find? (fun p => p.1 = k)).map (·.2)

/-- `end_study_session` (working_memory.py lines 76-90): the falsy guard
`if not self.current_session: return {}` (dead: the dict is never falsy), then
in-place `end_time = now()`, `duration = (end_time - start_time) in hours`,
`session_copy = self.current_session.copy()` (shallow: shares `topicsRef` and
`metricsRef`), append to `session_history`, `save_memory()`, return the copy. -/
def endStudySession (s : WorkingMemory) : Option Session × WorkingMemory :=
  match s.current_session with
  | none => (none, s)
  | some cs =>
    let e := s.clock
    let dur : ℚ := ((e : ℚ) - (cs.start_time : ℚ)) * 1 / 3600
    let cs' : Session := { cs with end_time := some e, duration := some dur }
    (some cs',
      { s with current_session := some cs'
               session_history := s.session_history ++ [cs']
               clock := s.clock + 1
               saves := s.saves + 1 })

/-- `start_study_session` (working_memory.py lines 64-74): if the current
session exists and has at least one topic entry, first `end_study_session()`;
then replace `current_session` by a fresh dict with `start_time = now()` and
freshly allocated empty `topics_studied` / `performance_metrics` objects. -/
def startStudySession (s : WorkingMemory) : WorkingMemory :=
  let s1 :=
    match s.current_session with
    | some cs => if (sessTopics s cs).length > 0 then (endStudySession s).2 else s
    | none => s
  { s1 with
    topicCells := s1.topicCells ++ [[]]
    metricCells := s1.metricCells ++ [[]]
    current_session := some
      { start_time := s1.clock, end_time := none, duration := none
        topicsRef := s1.topicCells.length, metricsRef := s1.metricCells.length }
    clock := s1.clock + 1 }

/-- `record_topic_study` (working_memory.py lines 92-107): auto-start when no
current session (dead branch, the dict is never falsy), then append the entry
to the `topics_studied` list object of the current session (mutates the shared
object through the heap). -/
def recordTopicStudy (s : WorkingMemory) (topic : String) (minutes : Int) :
    WorkingMemory :=
  let s1 := match s.current_session with
    | none => startStudySession s
    | some _ => s
  match s1.current_session with
  | some cs =>
    let entry : TopicEntry :=
      { topic := topic, duration_minutes := minutes, timestamp := s1.clock }
    { s1 with
      topicCells := s1.topicCells.set cs.topicsRef (sessTopics s1 cs ++ [entry])
      clock := s1.clock + 1 }
  | none => s1

/-- `record_performance` (working_memory.py lines 109-134): append
`{"score": score, "timestamp": now()}` to `performance_history[topic]`
(creating the key on first use), then append a second record with a second
`now()` to the current session's `performance_metrics[topic]` (mutating the
shared dict object through the heap), then `save_memory()`.  The session dict
is accessed without a guard; `current_session` is never absent. -/
def recordPerformance (s : WorkingMemory) (topic : String) (score : ℚ) :
    WorkingMemory :=
  let s1 := { s with
    performance_history := perfAppend s.performance_history topic
      { score := score, timestamp := s.clock }
    clock := s.clock + 1 }
  match s1.current_session with
  | some cs =>
    { s1 with
      metricCells := s1.metricCells.set cs.metricsRef
        (perfAppend (sessMetrics s1 cs) topic { score := score, timestamp := s1.clock })
      clock := s1.clock + 1
      saves := s1.saves + 1 }
  | none => s1

/-- `get_performance_trend` (working_memory.py lines 161-178): the topic's
records sorted ascending by timestamp.  Python `sorted` is a stable sort; it is
modelled by the stable `List.insertionSort` under `timestamp ≤ timestamp`. -/
def getPerformanceTrend (s : WorkingMemory) (topic : String) : List PerfRecord :=
  match perfLookup s.performance_history topic with
  | none => []
  | some l => l.insertionSort (fun a b => a.timestamp ≤ b.timestamp)

/-- `update_adaptive_parameters` (working_memory.py lines 180-200): each
supplied argument is clamped (`max lo (min hi v)`) and stored, each absent
(`None`) argument leaves its parameter unchanged; then `save_memory()`. -/
def updateAdaptiveParameters (s : WorkingMemory)
    (fatigue_factor interest_factor retention_rate : Option ℚ) : WorkingMemory :=
  let p := s.adaptive_parameters
  let p := match fatigue_factor with
    | some v => { p with fatigue_factor := max (1/10) (min 2 v) }
    | none => p
  let p := match interest_factor with
    | some v => { p with interest_factor := max (1/10) (min 2 v) }
    | none => p
  let p := match retention_rate with
    | some v => { p with retention_rate := max 0 (min 1 v) }
    | none => p
  { s with adaptive_parameters := p, saves := s.saves + 1 }

/-- Python `int()` applied to a rational: truncation toward zero. -/
def pyInt (q : ℚ) : ℤ := if 0 ≤ q then ⌊q⌋ else ⌈q⌉

/-- `get_recommended_break` (working_memory.py lines 202-216):
`int(5 + study_duration * 10 * fatigue_factor)`. -/
def getRecommendedBreak (s : WorkingMemory) (study_duration : ℚ) : ℤ :=
  pyInt (5 + study_duration * 10 * s.adaptive_parameters.fatigue_factor)

/-- The `for i, score in enumerate(scores)` loop of `estimate_topic_mastery`
(working_memory.py lines 239-245), returning `(weighted_sum, weight_sum)`. -/
def weightedSums (scores : List ℚ) : ℚ × ℚ :=
  scores.enum.foldl
    (fun acc p => (acc.1 + p.2 * ((p.1 : ℚ) + 1), acc.2 + ((p.1 : ℚ) + 1)))
    (0, 0)

/-- `estimate_topic_mastery` (working_memory.py lines 218-247). -/
def estimateTopicMastery (s : WorkingMemory) (topic : String) : ℚ :=
  match perfLookup s.performance_history topic with
  | none => 0
  | some recs =>
    if recs.isEmpty then 0
    else
      let trend := getPerformanceTrend s topic
      let scores := trend.map (·.score)
      if scores.isEmpty then 0
      else
        let ws := weightedSums scores
        min 1 (ws.1 / ws.2 / 100)

/-!
## Persistence model

`save_memory` serializes `{"session_history": ..., "performance_history": ...,
"adaptive_parameters": ...}` with `json.dump(data, f, indent=2, default=str)`:
every `datetime` object (not JSON-serializable) is replaced by its `str(...)`
text.  `_load_memory` parses the file with `json.load` and stores the raw
parsed values.  Python values appearing in the payload are modelled by `PyVal`
(numbers, strings, datetimes, lists, string-keyed dicts — the only shapes this
program ever produces or reads), JSON documents by `JVal`.
-/

mutual
inductive PyVal where
  | num (q : ℚ)
  | str (s : String)
  | dt (t : Nat)
  | list (xs : PyList)
  | dict (kvs : PyDict)
deriving DecidableEq, Repr
inductive PyList where
  | nil
  | cons (hd : PyVal) (tl : PyList)
deriving DecidableEq, Repr
inductive PyDict where
  | nil
  | cons (k : String) (v : PyVal) (tl : PyDict)
deriving DecidableEq, Repr
end

mutual
inductive JVal where
  | num (q : ℚ)
  | str (s : String)
  | arr (xs : JList)
  | obj (kvs : JDict)
deriving DecidableEq, Repr
inductive JList where
  | nil
  | cons (hd : JVal) (tl : JList)
deriving DecidableEq, Repr
inductive JDict where
  | nil
  | cons (k : String) (v : JVal) (tl : JDict)
deriving DecidableEq, Repr
end

/-- Model of `str(d)` for a `datetime` `d`: the textual timestamp
representation used by `json.dump(..., default=str)`.  Only its shape (a
string determined by the instant) matters to the claims. -/
def dtStr (t : Nat) : String := "1970-01-01 00:00:" ++ toString t

mutual
/-- `json.dump(..., default=str)`: datetimes become their `str` text. -/
def pyToJson : PyVal → JVal
  | .num q => .num q
  | .str s => .str s
  | .dt t => .str (dtStr t)
  | .list xs => .arr (pyListToJson xs)
  | .dict kvs => .obj (pyDictToJson kvs)
def pyListToJson : PyList → JList
  | .nil => .nil
  | .cons h t => .cons (pyToJson h) (pyListToJson t)
def pyDictToJson : PyDict → JDict
  | .nil => .nil
  | .cons k v t => .cons k (pyToJson v) (pyDictToJson t)
end

mutual
/-- `json.load`: the Python value a parsed JSON document denotes. -/
def jsonToPy : JVal → PyVal
  | .num q => .num q
  | .str s => .str s
  | .arr xs => .list (jsonListToPy xs)
  | .obj kvs => .dict (jsonDictToPy kvs)
def jsonListToPy : JList → PyList
  | .nil => .nil
  | .cons h t => .cons (jsonToPy h) (jsonListToPy t)
def jsonDictToPy : JDict → PyDict
  | .nil => .nil
  | .cons k v t => .cons k (jsonToPy v) (jsonDictToPy t)
end

mutual
/-- Replace every datetime leaf by its serialized text, leave the rest. -/
def stringifyDt : PyVal → PyVal
  | .num q => .num q
  | .str s => .str s
  | .dt t => .str (dtStr t)
  | .list xs => .list (stringifyDtList xs)
  | .dict kvs => .dict (stringifyDtDict kvs)
def stringifyDtList : PyList → PyList
  | .nil => .nil
  | .cons h t => .cons (stringifyDt h) (stringifyDtList t)
def stringifyDtDict : PyDict → PyDict
  | .nil => .nil
  | .cons k v t => .cons k (stringifyDt v) (stringifyDtDict t)
end

mutual
/-- Does the value contain a datetime leaf anywhere? -/
def hasDt : PyVal → Bool
  | .num _ => false
  | .str _ => false
  | .dt _ => true
  | .list xs => hasDtList xs
  | .dict kvs => hasDtDict kvs
def hasDtList : PyList → Bool
  | .nil => false
  | .cons h t => hasDt h || hasDtList t
def hasDtDict : PyDict → Bool
  | .nil => false
  | .cons _ v t => hasDt v || hasDtDict t
end

/-- Python `d.get(k, default)` on a dict value. -/
def pyGet (kvs : PyDict) (k : String) (default : PyVal) : PyVal :=
  match kvs with
  | .nil => default
  | .cons k' v t => if k' = k then v else pyGet t k default

/-- `adaptive_parameters` as the Python dict value it is serialized from. -/
def pyParams (p : AdaptiveParams) : PyVal :=
  .dict (.cons "fatigue_factor" (.num p.fatigue_factor)
    (.cons "interest_factor" (.num p.interest_factor)
      (.cons "retention_rate" (.num p.retention_rate) .nil)))

/-- A performance record as its Python dict value. -/
def pyPerfRecord (r : PerfRecord) : PyVal :=
  .dict (.cons "score" (.num r.score) (.cons "timestamp" (.dt r.timestamp) .nil))

/-- A list of performance records as a Python list value. -/
def pyPerfList : List PerfRecord → PyList
  | [] => .nil
  | r :: t => .cons (pyPerfRecord r) (pyPerfList t)

/-- A topic → records dict (`performance_history`, `performance_metrics`). -/
def pyPerfMap : PerfMap → PyDict
  | [] => .nil
  | (k, v) :: t => .cons k (.list (pyPerfList v)) (pyPerfMap t)

/-- A topic-study entry as its Python dict value. -/
def pyTopicEntry (e : TopicEntry) : PyVal :=
  .dict (.cons "topic" (.str e.topic)
    (.cons "duration_minutes" (.num (e.duration_minutes : ℚ))
      (.cons "timestamp" (.dt e.timestamp) .nil)))

/-- A list of topic-study entries as a Python list value. -/
def pyTopicList : List TopicEntry → PyList
  | [] => .nil
  | e :: t => .cons (pyTopicEntry e) (pyTopicList t)

/-- A session dict with its heap-held containers dereferenced; the optional
`end_time` / `duration` keys come last (they are inserted by
`end_study_session` after the three construction-time keys). -/
def pySession (s : WorkingMemory) (cs : Session) : PyVal :=
  .dict (.cons "start_time" (.dt cs.start_time)
    (.cons "topics_studied" (.list (pyTopicList (sessTopics s cs)))
      (.cons "performance_metrics" (.dict (pyPerfMap (sessMetrics s cs)))
        (match cs.end_time, cs.duration with
         | some e, some d => .cons "end_time" (.dt e) (.cons "duration" (.num d) .nil)
         | some e, none => .cons "end_time" (.dt e) .nil
         | none, some d => .cons "duration" (.num d) .nil
         | none, none => .nil))))

/-- The archived sessions as a Python list value. -/
def pySessionList (s : WorkingMemory) : List Session → PyList
  | [] => .nil
  | cs :: t => .cons (pySession s cs) (pySessionList s t)

/-- The exact dict `save_memory` serializes (working_memory.py lines 52-56):
`{"session_history": ..., "performance_history": ..., "adaptive_parameters": ...}`. -/
def payloadPy (s : WorkingMemory) : PyVal :=
  .dict (.cons "session_history" (.list (pySessionList s s.session_history))
    (.cons "performance_history" (.dict (pyPerfMap s.performance_history))
      (.cons "adaptive_parameters" (pyParams s.adaptive_parameters) .nil)))

/-- The document `save_memory` writes to the file. -/
def savePayload (s : WorkingMemory) : JVal := pyToJson (payloadPy s)

/-- Condition of the persisted resource as seen by `_load_memory`:
absent (`os.path.exists` false), unreadable (`open`/read raises `IOError`),
syntactically malformed (`json.load` raises `JSONDecodeError`), or a
well-formed JSON document. -/
inductive FileState where
  | missing
  | unreadable
  | badSyntax
  | content (j : JVal)

/-- The uncaught Python exceptions the load path can raise. -/
inductive PyErr where
  | attributeError
deriving DecidableEq, Repr

/-- The three fields `_load_memory` assigns, as raw parsed Python values
(the code stores the parsed JSON objects directly, untyped). -/
structure LoadedState where
  session_history : PyVal
  performance_history : PyVal
  adaptive_parameters : PyVal
deriving DecidableEq, Repr

/-- The pre-load in-memory values from `__init__` (lines 23-29). -/
def loadDefaults : LoadedState :=
  { session_history := .list .nil
    performance_history := .dict .nil
    adaptive_parameters := pyParams defaultParams }

/-- `_load_memory` (working_memory.py lines 34-44).  A missing file is
skipped; `JSONDecodeError` and `IOError` are caught (state keeps `defaults`);
but on a well-formed document the code calls `data.get(...)`, which raises an
uncaught `AttributeError` whenever the parsed value is not a dict.  The
`data.get` fallbacks are the literal `[]`/`{}...` for the histories and the
current in-memory `self.adaptive_parameters` for the parameters. -/
def loadMemory (fs : FileState) (defaults : LoadedState) :
    Except PyErr LoadedState :=
  match fs with
  | .missing => .ok defaults
  | .unreadable => .ok defaults
  | .badSyntax => .ok defaults
  | .content j =>
    match jsonToPy j with
    | .dict d =>
      .ok { session_history := pyGet d "session_history" (.list .nil)
            performance_history := pyGet d "performance_history" (.dict .nil)
            adaptive_parameters :=
              pyGet d "adaptive_parameters" defaults.adaptive_parameters }
    | _ => .error .attributeError

/-- The mutating operations of the Tracker facade, for stating invariants
over arbitrary operation sequences. -/
inductive Op where
  | startSession
  | endSession
  | topicStudy (topic : String) (minutes : Int)
  | performance (topic : String) (score : ℚ)
  | updateParams (fatigue interest retention : Option ℚ)

/-- One facade call. -/
def applyOp (s : WorkingMemory) : Op → WorkingMemory
  | .startSession => startStudySession s
  | .endSession => (endStudySession s).2
  | .topicStudy t m => recordTopicStudy s t m
  | .performance t sc => recordPerformance s t sc
  | .updateParams f i r => updateAdaptiveParameters s f i r

/-- A sequence of facade calls. -/
def runOps (s : WorkingMemory) (ops : List Op) : WorkingMemory :=
  ops.foldl applyOp s

/-- The §3 bounds on the adaptive parameters. -/
def ParamsInBounds (p : AdaptiveParams) : Prop :=
  1/10 ≤ p.fatigue_factor ∧ p.fatigue_factor ≤ 2 ∧
  1/10 ≤ p.interest_factor ∧ p.interest_factor ≤ 2 ∧
  0 ≤ p.retention_rate ∧ p.retention_rate ≤ 1

/-!
## Helper lemmas
-/

instance : IsTotal PerfRecord (fun a b => a.timestamp ≤ b.timestamp) :=
  ⟨fun a b => Nat.le_total a.timestamp b.timestamp⟩

instance : IsTrans PerfRecord (fun a b => a.timestamp ≤ b.timestamp) :=
  ⟨fun _ _ _ h1 h2 => Nat.le_trans h1 h2⟩

mutual
theorem jsonToPy_pyToJson : ∀ v : PyVal, jsonToPy (pyToJson v) = stringifyDt v
  | .num _ => rfl
  | .str _ => rfl
  | .dt _ => rfl
  | .list xs => by
      simp only [pyToJson, jsonToPy, stringifyDt, jsonListToPy_pyListToJson xs]
  | .dict kvs => by
      simp only [pyToJson, jsonToPy, stringifyDt, jsonDictToPy_pyDictToJson kvs]
theorem jsonListToPy_pyListToJson :
    ∀ xs : PyList, jsonListToPy (pyListToJson xs) = stringifyDtList xs
  | .nil => rfl
  | .cons h t => by
      simp only [pyListToJson, jsonListToPy, stringifyDtList,
        jsonToPy_pyToJson h, jsonListToPy_pyListToJson t]
theorem jsonDictToPy_pyDictToJson :
    ∀ kvs : PyDict, jsonDictToPy (pyDictToJson kvs) = stringifyDtDict kvs
  | .nil => rfl
  | .cons k v t => by
      simp only [pyDictToJson, jsonDictToPy, stringifyDtDict,
        jsonToPy_pyToJson v, jsonDictToPy_pyDictToJson t]
end

theorem enumFrom_weight_foldl (l : List ℚ) :
    ∀ (k : ℕ) (a b : ℚ),
      ((List.enumFrom k l).foldl
        (fun acc p => (acc.1 + p.2 * ((p.1 : ℚ) + 1), acc.2 + ((p.1 : ℚ) + 1)))
        (a, b)) =
      (a + ∑ i ∈ Finset.range l.length, l.getD i 0 * ((k : ℚ) + i + 1),
       b + ∑ i ∈ Finset.range l.length, ((k : ℚ) + i + 1)) := by
  induction l with
  | nil => intro k a b; simp
  | cons x t ih =>
      intro k a b
      rw [List.enumFrom, List.foldl, ih (k + 1)]
      have h1 : ∑ i ∈ Finset.range t.length, t.getD i 0 * ((↑(k + 1) : ℚ) + i + 1) =
          ∑ i ∈ Finset.range t.length, t.getD i 0 * ((k : ℚ) + (↑(i + 1) : ℚ) + 1) :=
        Finset.sum_congr rfl fun i _ => by push_cast; ring
      have h2 : ∑ i ∈ Finset.range t.length, ((↑(k + 1) : ℚ) + i + 1) =
          ∑ i ∈ Finset.range t.length, ((k : ℚ) + (↑(i + 1) : ℚ) + 1) :=
        Finset.sum_congr rfl fun i _ => by push_cast; ring
      refine Prod.ext ?_ ?_ <;>
        simp only [List.length_cons, Finset.sum_range_succ',
          List.getD_cons_succ, List.getD_cons_zero, h1, h2] <;>
        push_cast <;> ring

theorem weightedSums_eq (l : List ℚ) :
    weightedSums l =
      (∑ i ∈ Finset.range l.length, l.getD i 0 * ((i : ℚ) + 1),
       ∑ i ∈ Finset.range l.length, ((i : ℚ) + 1)) := by
  unfold weightedSums
  rw [List.enum, enumFrom_weight_foldl l 0 0 0]
  simp

theorem endStudySession_params (s : WorkingMemory) :
    (endStudySession s).2.adaptive_parameters = s.adaptive_parameters := by
  unfold endStudySession
  cases hcs : s.current_session <;> simp

theorem startStudySession_params (s : WorkingMemory) :
    (startStudySession s).adaptive_parameters = s.adaptive_parameters := by
  unfold startStudySession
  cases hcs : s.current_session <;> simp
  split
  · exact endStudySession_params s
  · rfl

theorem recordTopicStudy_params (s : WorkingMemory) (topic : String) (m : Int) :
    (recordTopicStudy s topic m).adaptive_parameters = s.adaptive_parameters := by
  unfold recordTopicStudy
  cases hcs : s.current_session
  · cases hcs2 : (startStudySession s).current_session <;>
      simp [hcs2, startStudySession_params s]
  · simp [hcs]

theorem recordPerformance_params (s : WorkingMemory) (topic : String) (sc : ℚ) :
    (recordPerformance s topic sc).adaptive_parameters = s.adaptive_parameters := by
  unfold recordPerformance
  cases hcs : s.current_session <;> simp [hcs]

theorem clamp_mem (lo hi v : ℚ) (h : lo ≤ hi) :
    lo ≤ max lo (min hi v) ∧ max lo (min hi v) ≤ hi :=
  ⟨le_max_left _ _, max_le h (min_le_left _ _)⟩

theorem updateAdaptiveParameters_fields (s : WorkingMemory) (f i r : Option ℚ) :
    (updateAdaptiveParameters s f i r).adaptive_parameters =
      { fatigue_factor :=
          match f with
          | some v => max (1/10) (min 2 v)
          | none => s.adaptive_parameters.fatigue_factor
        interest_factor :=
          match i with
          | some v => max (1/10) (min 2 v)
          | none => s.adaptive_parameters.interest_factor
        retention_rate :=
          match r with
          | some v => max 0 (min 1 v)
          | none => s.adaptive_parameters.retention_rate } := by
  cases f <;> cases i <;> cases r <;> rfl

theorem updateAdaptiveParameters_bounds (s : WorkingMemory)
    (f i r : Option ℚ) (h : ParamsInBounds s.adaptive_parameters) :
    ParamsInBounds (updateAdaptiveParameters s f i r).adaptive_parameters := by
  obtain ⟨h1, h2, h3, h4, h5, h6⟩ := h
  rw [updateAdaptiveParameters_fields]
  refine ⟨?_, ?_, ?_, ?_, ?_, ?_⟩
  · cases f with
    | none => exact h1
    | some v => exact (clamp_mem _ _ v (by norm_num)).1
  · cases f with
    | none => exact h2
    | some v => exact (clamp_mem _ _ v (by norm_num)).2
  · cases i with
    | none => exact h3
    | some v => exact (clamp_mem _ _ v (by norm_num)).1
  · cases i with
    | none => exact h4
    | some v => exact (clamp_mem _ _ v (by norm_num)).2
  · cases r with
    | none => exact h5
    | some v => exact (clamp_mem _ _ v (by norm_num)).1
  · cases r with
    | none => exact h6
    | some v => exact (clamp_mem _ _ v (by norm_num)).2

theorem applyOp_params_bounds (s : WorkingMemory) (o : Op)
    (h : ParamsInBounds s.adaptive_parameters) :
    ParamsInBounds (applyOp s o).adaptive_parameters := by
  cases o with
  | startSession => rw [applyOp, startStudySession_params]; exact h
  | endSession => rw [applyOp, endStudySession_params]; exact h
  | topicStudy t m => rw [applyOp, recordTopicStudy_params]; exact h
  | performance t sc => rw [applyOp, recordPerformance_params]; exact h
  | updateParams f i r => exact updateAdaptiveParameters_bounds s f i r h

theorem runOps_params_bounds (ops : List Op) :
    ∀ s : WorkingMemory, ParamsInBounds s.adaptive_parameters →
      ParamsInBounds (runOps s ops).adaptive_parameters := by
  induction ops with
  | nil => intro s h; exact h
  | cons o t ih =>
      intro s h
      exact ih (applyOp s o) (applyOp_params_bounds s o h)

theorem defaultParams_bounds : ParamsInBounds defaultParams := by
  refine ⟨?_, ?_, ?_, ?_, ?_, ?_⟩ <;> norm_num [defaultParams]

theorem getPerformanceTrend_length_eq (s : WorkingMemory) (topic : String)
    (recs : List PerfRecord) (hl : perfLookup s.performance_history topic = some recs) :
    (getPerformanceTrend s topic).length = recs.length := by
  unfold getPerformanceTrend
  rw [hl]
  exact List.length_insertionSort _ recs

theorem estimateTopicMastery_eq (s : WorkingMemory) (topic : String) :
    estimateTopicMastery s topic =
      if (getPerformanceTrend s topic).length = 0 then 0
      else
        min 1 ((∑ i ∈ Finset.range (getPerformanceTrend s topic).length,
            ((getPerformanceTrend s topic).map (·.score)).getD i 0 * ((i : ℚ) + 1)) /
          (∑ i ∈ Finset.range (getPerformanceTrend s topic).length, ((i : ℚ) + 1)) /
          100) := by
  unfold estimateTopicMastery
  cases hl : perfLookup s.performance_history topic with
  | none =>
      have ht : getPerformanceTrend s topic = [] := by
        unfold getPerformanceTrend; rw [hl]
      simp [ht]
  | some recs =>
      cases recs with
      | nil =>
          have ht : getPerformanceTrend s topic = [] := by
            unfold getPerformanceTrend
            rw [hl]
            rfl
          simp [ht]
      | cons r0 rs =>
          have hlen := getPerformanceTrend_length_eq s topic (r0 :: rs) hl
          have hne : (getPerformanceTrend s topic).length ≠ 0 := by
            rw [hlen]
            simp
          have hsc : ((getPerformanceTrend s topic).map (·.score)).isEmpty = false := by
            rw [Bool.eq_false_iff]
            intro hab
            exact hne (by simpa [List.length_map] using
              List.isEmpty_iff_length_eq_zero.mp hab)
          simp only [List.isEmpty_cons, Bool.false_eq_true, if_false, hsc, if_neg hne,
            weightedSums_eq, List.length_map]

theorem estimateTopicMastery_le_one (s : WorkingMemory) (topic : String) :
    estimateTopicMastery s topic ≤ 1 := by
  rw [estimateTopicMastery_eq]
  split
  · norm_num
  · exact min_le_left _ _

theorem mem_getPerformanceTrend (s : WorkingMemory) (topic : String)
    {r : PerfRecord} (hr : r ∈ getPerformanceTrend s topic) :
    r ∈ (perfLookup s.performance_history topic).getD [] := by
  unfold getPerformanceTrend at hr
  cases hl : perfLookup s.performance_history topic with
  | none => rw [hl] at hr; simp at hr
  | some recs =>
      rw [hl] at hr
      simpa using (List.mem_insertionSort _).mp hr

theorem estimateTopicMastery_nonneg (s : WorkingMemory) (topic : String)
    (h : ∀ r ∈ (perfLookup s.performance_history topic).getD [], 0 ≤ r.score) :
    0 ≤ estimateTopicMastery s topic := by
  by_cases hc : (getPerformanceTrend s topic).length = 0
  · rw [estimateTopicMastery_eq, if_pos hc]
  · rw [estimateTopicMastery_eq, if_neg hc]
    refine le_min (by norm_num) ?_
    refine div_nonneg (div_nonneg ?_ ?_) (by norm_num)
    · refine Finset.sum_nonneg fun i hi => mul_nonneg ?_ (by positivity)
      have hilt : i < (getPerformanceTrend s topic).length := Finset.mem_range.mp hi
      have hilt' : i < ((getPerformanceTrend s topic).map (·.score)).length := by
        rwa [List.length_map]
      rw [List.getD_eq_getElem _ 0 hilt', List.getElem_map]
      exact h _ (mem_getPerformanceTrend s topic (List.getElem_mem hilt))
    · refine le_of_lt (Finset.sum_pos (fun i _ => by positivity) ?_)
      exact ⟨0, Finset.mem_range.mpr (Nat.pos_of_ne_zero hc)⟩

/-!
## Concrete scenarios
-/

/-- §8 scenario: three scores for topic "AI" — 40, 60, 80 (oldest to newest). -/
def masteryScenario : WorkingMemory :=
  recordPerformance (recordPerformance (recordPerformance (initWM 0) "AI" 40) "AI" 60)
    "AI" 80

/-- A history holding one out-of-range (negative) score. -/
def negScoreScenario : WorkingMemory := recordPerformance (initWM 0) "T" (-50)

/-- Record topic "A", end (archive) the session. -/
def mutScenario2 : WorkingMemory :=
  (endStudySession (recordTopicStudy (initWM 0) "A" 10)).2

/-- ... then record topic "B" without starting a new session. -/
def mutScenario3 : WorkingMemory := recordTopicStudy mutScenario2 "B" 5

/-- A performance record in the active session that has no topic entries. -/
def perfOnlyScenario : WorkingMemory := recordPerformance (initWM 0) "T" 50

/-- A state with one archived session, for the round-trip counterexample. -/
def rtScenario : WorkingMemory := mutScenario2

/-- A persisted document carrying an out-of-bounds `fatigue_factor`. -/
def oobFile : JVal :=
  .obj (.cons "adaptive_parameters"
    (.obj (.cons "fatigue_factor" (.num 100)
      (.cons "interest_factor" (.num 1)
        (.cons "retention_rate" (.num (8/10)) .nil)))) .nil)

/-- A well-formed JSON document that is not an object: the text `[1, 2, 3]`. -/
def arrFile : JVal := .arr (.cons (.num 1) (.cons (.num 2) (.cons (.num 3) .nil)))

/-!
## Claims
-/

/-- C1 (counterexample): on a Tracker on which neither `start_study_session`
nor `record_topic_study` has ever been called, `end_study_session` does NOT
return an empty result, DOES append to `session_history`, and DOES save: the
construction-time current session is truthy, so the `if not
self.current_session` guard never fires. -/
theorem end_on_fresh_tracker_archives :
    (endStudySession (initWM 0)).1 ≠ none ∧
    (endStudySession (initWM 0)).2.session_history ≠ [] ∧
    (endStudySession (initWM 0)).2.saves ≠ 0 := by
  decide

/-- C1 (amended): calling `end_study_session` on a Tracker on which neither
`start_study_session` nor `record_topic_study` has ever been called archives
the initial (empty) active session: it returns that session (with `end_time`
set and `duration = 1 tick / 3600`), appends exactly it to `session_history`,
and performs one persistence save; the empty-result no-save path would require
`current_session` to be falsy, which never happens after construction. -/
theorem end_on_fresh_tracker_result (c : Nat) :
    (endStudySession (initWM c)).1 =
      some { start_time := c, end_time := some (c + 1),
             duration := some (1 / 3600), topicsRef := 0, metricsRef := 0 } ∧
    (endStudySession (initWM c)).2.session_history =
      [{ start_time := c, end_time := some (c + 1),
         duration := some (1 / 3600), topicsRef := 0, metricsRef := 0 }] ∧
    (endStudySession (initWM c)).2.saves = 1 ∧
    sessTopics (endStudySession (initWM c)).2
      { start_time := c, end_time := some (c + 1),
        duration := some (1 / 3600), topicsRef := 0, metricsRef := 0 } = [] ∧
    sessMetrics (endStudySession (initWM c)).2
      { start_time := c, end_time := some (c + 1),
        duration := some (1 / 3600), topicsRef := 0, metricsRef := 0 } = [] := by
  have hd : ((c + 1 : ℕ) : ℚ) - (c : ℚ) = 1 := by push_cast; ring
  refine ⟨?_, ?_, rfl, rfl, rfl⟩ <;>
    simp [endStudySession, initWM, hd]

/-- C2: REFUTED on the code — `session_copy = self.current_session.copy()` is
a shallow copy, so the archived session shares its `topics_studied` list with
the still-live `current_session`; a `record_topic_study` call made after
`end_study_session` (without `start_study_session` in between) appends to that
shared list and thereby mutates the archived session in `session_history`.
Here: after archiving, the archived session's topics are `["A"]`; one more
`record_topic_study("B", 5)` leaves `session_history` itself untouched but the
same archived session now lists two topics. -/
theorem archived_session_mutated :
    mutScenario2.session_history.map (fun cs => sessTopics mutScenario2 cs) =
      [[{ topic := "A", duration_minutes := 10, timestamp := 1 }]] ∧
    mutScenario3.session_history = mutScenario2.session_history ∧
    mutScenario3.session_history.map (fun cs => sessTopics mutScenario3 cs) =
      [[{ topic := "A", duration_minutes := 10, timestamp := 1 },
        { topic := "B", duration_minutes := 5, timestamp := 3 }]] :=
  ⟨by decide, rfl, by decide⟩

/-- The adaptive-parameters dict contains no instants, so serialization leaves
it unchanged. -/
theorem stringifyDt_pyParams (p : AdaptiveParams) :
    stringifyDt (pyParams p) = pyParams p := rfl

/-- C3 (counterexample): save-then-load does NOT reproduce an identical state:
`json.dump(..., default=str)` turns every `datetime` into text, so for a state
with one archived session the loaded `session_history` differs from the saved
in-memory one (string timestamps instead of `datetime` objects). -/
theorem roundtrip_not_identical :
    jsonToPy (savePayload rtScenario) ≠ payloadPy rtScenario := by
  decide

/-- C3 (amended): saving and re-loading reproduces `adaptive_parameters`
identically, and reproduces `session_history` and `performance_history` up to
replacing every instant with its textual serialized representation (so states
whose payload carries no instants round-trip identically, and any archived
session or performance record makes the loaded state differ). -/
theorem roundtrip_up_to_instants (s : WorkingMemory) :
    jsonToPy (savePayload s) = stringifyDt (payloadPy s) ∧
    loadMemory (.content (savePayload s)) loadDefaults =
      .ok { session_history :=
              stringifyDt (.list (pySessionList s s.session_history))
            performance_history :=
              stringifyDt (.dict (pyPerfMap s.performance_history))
            adaptive_parameters := pyParams s.adaptive_parameters } := by
  have h := jsonToPy_pyToJson (payloadPy s)
  refine ⟨h, ?_⟩
  simp only [loadMemory, savePayload]
  rw [h]
  simp only [payloadPy, stringifyDt, stringifyDtDict, stringifyDt_pyParams]
  simp [pyGet]
  simp [pyParams, stringifyDtDict, stringifyDt]

/-- C6: REFUTED in one corner — `_load_memory` catches `JSONDecodeError` and
`IOError` (missing, unreadable and syntactically malformed persisted files all
degrade to the default state), but a well-formed document that is not an
object (for example the file text `[1, 2, 3]`) reaches `data.get(...)` and
raises an uncaught `AttributeError` out of the constructor. -/
theorem load_nonobject_raises :
    loadMemory (.content arrFile) loadDefaults = .error .attributeError ∧
    loadMemory .missing loadDefaults = .ok loadDefaults ∧
    loadMemory .unreadable loadDefaults = .ok loadDefaults ∧
    loadMemory .badSyntax loadDefaults = .ok loadDefaults :=
  ⟨rfl, rfl, rfl, rfl⟩

/-- C9 (counterexample): `_load_memory` stores persisted `adaptive_parameters`
without any clamping, so constructing a Tracker from a resource carrying
`fatigue_factor = 100.0` leaves `fatigue_factor` far outside `[0.1, 2.0]`. -/
theorem load_adopts_out_of_bounds_params :
    loadMemory (.content oobFile) loadDefaults =
      .ok { session_history := .list .nil
            performance_history := .dict .nil
            adaptive_parameters :=
              pyParams { fatigue_factor := 100, interest_factor := 1,
                         retention_rate := 8/10 } } ∧
    ¬ ParamsInBounds
        { fatigue_factor := 100, interest_factor := 1, retention_rate := 8/10 } :=
  ⟨rfl, fun h => absurd h.2.1 (by norm_num)⟩

/-- C9 (amended): after construction without a persisted resource and after
every sequence of Tracker operations, the stored adaptive parameters satisfy
`fatigue_factor ∈ [0.1, 2.0]`, `interest_factor ∈ [0.1, 2.0]`,
`retention_rate ∈ [0.0, 1.0]`; construction that loads a persisted resource,
however, adopts the resource's values verbatim (see the counterexample). -/
theorem params_in_bounds_without_load (c : Nat) (ops : List Op) :
    ParamsInBounds (runOps (initWM c) ops).adaptive_parameters :=
  runOps_params_bounds ops (initWM c) defaultParams_bounds

/-- The §8 scenario produces exactly the records 40, 60, 80 (in timestamp
order) for topic "AI". -/
theorem masteryScenario_trend :
    getPerformanceTrend masteryScenario "AI" =
      [{ score := 40, timestamp := 1 }, { score := 60, timestamp := 3 },
       { score := 80, timestamp := 5 }] := by
  decide

/-- C4: `estimate_topic_mastery` returns 0 exactly when the topic's trend is
empty (no performance records), and otherwise equals
`min(1, (Σ score_i·(i+1) / Σ (i+1)) / 100)` over the trend ordered ascending
by timestamp (oldest weight 1, newest highest); for recorded scores 40, 60,
80 (oldest to newest) it returns `400/6/100 = 2/3 ≈ 0.6667`. -/
theorem mastery_recency_weighted (s : WorkingMemory) (topic : String) :
    (estimateTopicMastery s topic =
      if (getPerformanceTrend s topic).length = 0 then 0
      else
        min 1 ((∑ i ∈ Finset.range (getPerformanceTrend s topic).length,
            ((getPerformanceTrend s topic).map (·.score)).getD i 0 * ((i : ℚ) + 1)) /
          (∑ i ∈ Finset.range (getPerformanceTrend s topic).length, ((i : ℚ) + 1)) /
          100)) ∧
    List.Sorted (fun a b => a.timestamp ≤ b.timestamp) (getPerformanceTrend s topic) ∧
    estimateTopicMastery masteryScenario "AI" = 400 / 6 / 100 := by
  refine ⟨estimateTopicMastery_eq s topic, ?_, ?_⟩
  · unfold getPerformanceTrend
    cases hl : perfLookup s.performance_history topic with
    | none => simp
    | some recs => exact List.sorted_insertionSort _ recs
  · rw [estimateTopicMastery_eq, masteryScenario_trend]
    norm_num [Finset.sum_range_succ, List.getD]

/-- C5 (counterexample): with an out-of-range negative score on record
(score `-50`), `estimate_topic_mastery` returns `-0.5`, which is NOT in
`[0.0, 1.0]`: the code clamps from above (`min(1.0, ...)`) but never from
below. -/
theorem mastery_negative_score_below_zero :
    estimateTopicMastery negScoreScenario "T" = -1/2 ∧
    ¬ (0 ≤ estimateTopicMastery negScoreScenario "T") := by
  have htrend : getPerformanceTrend negScoreScenario "T" =
      [{ score := -50, timestamp := 1 }] := by decide
  have hv : estimateTopicMastery negScoreScenario "T" = -1/2 := by
    rw [estimateTopicMastery_eq, htrend]
    norm_num [Finset.sum_range_succ, List.getD]
  exact ⟨hv, by rw [hv]; norm_num⟩

/-- C5 (amended): `estimate_topic_mastery` never errors and is always ≤ 1.0;
whenever every recorded score for the topic is ≥ 0 (scores above 100 included)
the result lies in `[0.0, 1.0]`; negative recorded scores, however, can push
the result below 0 (see the counterexample). -/
theorem mastery_bounded (s : WorkingMemory) (topic : String) :
    estimateTopicMastery s topic ≤ 1 ∧
    ((∀ r ∈ (perfLookup s.performance_history topic).getD [], 0 ≤ r.score) →
      0 ≤ estimateTopicMastery s topic ∧ estimateTopicMastery s topic ≤ 1) :=
  ⟨estimateTopicMastery_le_one s topic,
   fun h => ⟨estimateTopicMastery_nonneg s topic h,
             estimateTopicMastery_le_one s topic⟩⟩

/-- Witness for C5's amended theorem at a concrete history (one score of 50). -/
theorem mastery_bounded_witness :
    0 ≤ estimateTopicMastery perfOnlyScenario "T" ∧
    estimateTopicMastery perfOnlyScenario "T" ≤ 1 :=
  (mastery_bounded perfOnlyScenario "T").2 (by decide)

/-- C7: `update_adaptive_parameters` clamps each supplied value to its bound
before storing it (`fatigue_factor=5.0` stores `2.0`, `retention_rate=-1.0`
stores `0.0`, `interest_factor=0.05` stores `0.1`) and each absent (`None`)
argument leaves the corresponding parameter unchanged. -/
theorem update_clamps_supplied_preserves_absent (s : WorkingMemory)
    (f i r : Option ℚ) :
    (f = none →
      (updateAdaptiveParameters s f i r).adaptive_parameters.fatigue_factor =
        s.adaptive_parameters.fatigue_factor) ∧
    (i = none →
      (updateAdaptiveParameters s f i r).adaptive_parameters.interest_factor =
        s.adaptive_parameters.interest_factor) ∧
    (r = none →
      (updateAdaptiveParameters s f i r).adaptive_parameters.retention_rate =
        s.adaptive_parameters.retention_rate) ∧
    (∀ v, f = some v →
      (updateAdaptiveParameters s f i r).adaptive_parameters.fatigue_factor =
        max (1/10) (min 2 v)) ∧
    (∀ v, i = some v →
      (updateAdaptiveParameters s f i r).adaptive_parameters.interest_factor =
        max (1/10) (min 2 v)) ∧
    (∀ v, r = some v →
      (updateAdaptiveParameters s f i r).adaptive_parameters.retention_rate =
        max 0 (min 1 v)) ∧
    (updateAdaptiveParameters s (some 5) none none).adaptive_parameters.fatigue_factor
      = 2 ∧
    (updateAdaptiveParameters s none none (some (-1))).adaptive_parameters.retention_rate
      = 0 ∧
    (updateAdaptiveParameters s none (some (5/100)) none).adaptive_parameters.interest_factor
      = 1/10 := by
  refine ⟨?_, ?_, ?_, ?_, ?_, ?_, ?_, ?_, ?_⟩
  · intro hf; subst hf; simp [updateAdaptiveParameters_fields]
  · intro hi; subst hi; simp [updateAdaptiveParameters_fields]
  · intro hr; subst hr; simp [updateAdaptiveParameters_fields]
  · intro v hf; subst hf; simp [updateAdaptiveParameters_fields]
  · intro v hi; subst hi; simp [updateAdaptiveParameters_fields]
  · intro v hr; subst hr; simp [updateAdaptiveParameters_fields]
  · norm_num [updateAdaptiveParameters_fields, min_def, max_def]
  · norm_num [updateAdaptiveParameters_fields, min_def, max_def]
  · norm_num [updateAdaptiveParameters_fields, min_def, max_def]

/-- Witness for C7 at concrete inputs: a supplied 5.0 is stored clamped, an
absent argument leaves the parameter as it was. -/
theorem update_clamps_witness :
    (updateAdaptiveParameters (initWM 0) (some 5) none none).adaptive_parameters.fatigue_factor =
      max (1/10) (min 2 5) ∧
    (updateAdaptiveParameters (initWM 0) none none none).adaptive_parameters.retention_rate =
      (initWM 0).adaptive_parameters.retention_rate :=
  ⟨(update_clamps_supplied_preserves_absent (initWM 0) (some 5) none none).2.2.2.1 5 rfl,
   (update_clamps_supplied_preserves_absent (initWM 0) none none none).2.2.1 rfl⟩

/-- C8: for a non-negative study duration (and the always non-negative stored
fatigue factor), `get_recommended_break` returns the integer truncation of
`5 + duration × 10 × fatigue_factor` — that is, `5 + ⌊duration × 10 ×
fatigue⌋` minutes — and in particular returns 25 minutes for a 2-hour
duration at `fatigue_factor = 1.0`. -/
theorem recommended_break_formula (s : WorkingMemory) (d : ℚ)
    (hd : 0 ≤ d) (hf : 0 ≤ s.adaptive_parameters.fatigue_factor) :
    getRecommendedBreak s d =
      5 + ⌊d * 10 * s.adaptive_parameters.fatigue_factor⌋ ∧
    getRecommendedBreak (initWM 0) 2 = 25 := by
  constructor
  · unfold getRecommendedBreak pyInt
    have hx : 0 ≤ d * 10 * s.adaptive_parameters.fatigue_factor := by positivity
    rw [if_pos (by linarith)]
    have h5 : (5 : ℚ) + d * 10 * s.adaptive_parameters.fatigue_factor =
        d * 10 * s.adaptive_parameters.fatigue_factor + ((5 : ℤ) : ℚ) := by
      push_cast
      ring
    rw [h5, Int.floor_add_int]
    ring
  · norm_num [getRecommendedBreak, pyInt, initWM, defaultParams]

/-- Witness for C8: the §8 example itself. -/
theorem recommended_break_witness : getRecommendedBreak (initWM 0) 2 = 25 :=
  (recommended_break_formula (initWM 0) 2 (by norm_num) (by decide)).2

/-- C10: calling `start_study_session` while the active session has
performance records but zero `topics_studied` entries discards that session:
nothing is appended to `session_history`, no save happens, and the new active
session starts with empty topics and empty `performance_metrics` (the
session-scoped copies are lost; the Performance Ledger `performance_history`
is untouched and keeps the only surviving copies). -/
theorem start_discards_topicless_session (s : WorkingMemory) (cs : Session)
    (hcs : s.current_session = some cs)
    (htopics : sessTopics s cs = [])
    (hmetrics : sessMetrics s cs ≠ []) :
    (startStudySession s).session_history = s.session_history ∧
    (startStudySession s).saves = s.saves ∧
    (startStudySession s).performance_history = s.performance_history ∧
    (startStudySession s).current_session = some
      { start_time := s.clock, end_time := none, duration := none
        topicsRef := s.topicCells.length, metricsRef := s.metricCells.length } ∧
    sessTopics (startStudySession s)
      { start_time := s.clock, end_time := none, duration := none
        topicsRef := s.topicCells.length, metricsRef := s.metricCells.length } = [] ∧
    sessMetrics (startStudySession s)
      { start_time := s.clock, end_time := none, duration := none
        topicsRef := s.topicCells.length, metricsRef := s.metricCells.length } = [] := by
  unfold startStudySession
  simp only [hcs, htopics, List.length_nil, gt_iff_lt, Nat.lt_irrefl, if_false]
  simp [sessTopics, sessMetrics, List.getD, List.getElem?_concat_length]

/-- Witness for C10: the concrete scenario `record_performance("T", 50)` then
`start_study_session()`. -/
theorem start_discards_witness :
    (startStudySession perfOnlyScenario).session_history =
      perfOnlyScenario.session_history ∧
    (startStudySession perfOnlyScenario).saves = perfOnlyScenario.saves ∧
    (startStudySession perfOnlyScenario).performance_history =
      perfOnlyScenario.performance_history ∧
    (startStudySession perfOnlyScenario).current_session = some
      { start_time := perfOnlyScenario.clock, end_time := none, duration := none
        topicsRef := perfOnlyScenario.topicCells.length
        metricsRef := perfOnlyScenario.metricCells.length } ∧
    sessTopics (startStudySession perfOnlyScenario)
      { start_time := perfOnlyScenario.clock, end_time := none, duration := none
        topicsRef := perfOnlyScenario.topicCells.length
        metricsRef := perfOnlyScenario.metricCells.length } = [] ∧
    sessMetrics (startStudySession perfOnlyScenario)
      { start_time := perfOnlyScenario.clock, end_time := none, duration := none
        topicsRef := perfOnlyScenario.topicCells.length
        metricsRef := perfOnlyScenario.metricCells.length } = [] :=
  start_discards_topicless_session perfOnlyScenario
    { start_time := 0, end_time := none, duration := none
      topicsRef := 0, metricsRef := 0 }
    (by decide) (by decide) (by decide)
